import Mathlib

/-!
Verification of the se-electionbot core: a shallow embedding of the
election-state tracker, rescrape scheduler, phase-announcement scheduler
(ScheduledAnnouncement), outbound message queue, and bot configuration,
together with theorems settling the specification's claims about them.

Conventions of the embedding:
- JS timestamps are integers (milliseconds since the epoch).
- A JS value that may be `undefined`/`null` is an `Option`.
- A JS function that can return either `false` (explicit `return false`)
  or fall through (returning `undefined`) has result type `Option Bool`:
  `some false` is the explicit `return false`, `none` is `undefined`.
- Stateful methods are functions from the object's state to the new state
  (paired with the returned value where there is one).
-/

namespace ElectionBot

/-- The portion of a JS `Date` object the scheduler reads: its numeric value
(`valueOf()`, ms since epoch) and the calendar components used to build the
cron expression (`getHours()`, `getDate()`, `getMonth() + 1`). -/
structure JsDate where
  valueOf : Int
  hours : Nat
  day : Nat
  month : Nat
  deriving DecidableEq, Repr

/-- A cron expression `0 H D M *` as built by the init methods of
ScheduledAnnouncement: minute fixed to 0, then hour, day of month, month. -/
structure CronSpec where
  minute : Nat
  hour : Nat
  day : Nat
  month : Nat
  deriving DecidableEq, Repr

/-- The cron expression computed from a date in each init method:
`0 ${d.getHours()} ${d.getDate()} ${d.getMonth() + 1} *`. -/
def cronOf (d : JsDate) : CronSpec :=
  { minute := 0, hour := d.hours, day := d.day, month := d.month }

/-- A `node-cron` task handle as used by the scheduler: the schedule it was
created with and whether `stop()` has been called on it. -/
structure CronTask where
  spec : CronSpec
  stopped : Bool
  deriving DecidableEq, Repr

/-- State of a `ScheduledAnnouncement` instance: the four recorded schedules
(`_nominationSchedule` etc., `null` initially) and the four task handles
(`_nominationTask` etc., `null` initially). -/
structure Announcement where
  nominationSchedule : Option CronSpec
  primarySchedule : Option CronSpec
  electionStartSchedule : Option CronSpec
  electionEndSchedule : Option CronSpec
  nominationTask : Option CronTask
  primaryTask : Option CronTask
  electionStartTask : Option CronTask
  electionEndTask : Option CronTask
  deriving DecidableEq, Repr

/-- The constructor state: all schedules and tasks `null`. -/
def Announcement.fresh : Announcement :=
  { nominationSchedule := none, primarySchedule := none
    electionStartSchedule := none, electionEndSchedule := none
    nominationTask := none, primaryTask := none
    electionStartTask := none, electionEndTask := none }

/-- `get hasPrimary() { return !this._primarySchedule; }` — note the getter
returns TRUE when there is NO recorded primary schedule. -/
def Announcement.hasPrimary (a : Announcement) : Bool :=
  !a.primarySchedule.isSome

/-- `initElectionEnd(date)`. Guard: returns `false` if a schedule or task
already exists (this method, unlike the other three, has no
`typeof date == "undefined"` check; an absent date yields an Invalid Date
whose `valueOf()` is NaN, so the `> Date.now()` test is false and the method
falls through returning `undefined`). On a future date it arms a cron task
and records the schedule, returning `undefined`. -/
def initElectionEnd (now : Int) (date : Option JsDate) (a : Announcement) :
    Option Bool × Announcement :=
  if a.electionEndSchedule.isSome || a.electionEndTask.isSome then (some false, a)
  else
    match date with
    | none => (none, a)
    | some d =>
      if d.valueOf > now then
        (none, { a with
          electionEndTask := some { spec := cronOf d, stopped := false }
          electionEndSchedule := some (cronOf d) })
      else (none, a)

/-- `initElectionStart(date)`: returns `false` if a schedule or task already
exists or `date` is `undefined`; arms a task on a future date; otherwise
falls through returning `undefined`. -/
def initElectionStart (now : Int) (date : Option JsDate) (a : Announcement) :
    Option Bool × Announcement :=
  if a.electionStartSchedule.isSome || a.electionStartTask.isSome || date.isNone then
    (some false, a)
  else
    match date with
    | none => (some false, a)
    | some d =>
      if d.valueOf > now then
        (none, { a with
          electionStartTask := some { spec := cronOf d, stopped := false }
          electionStartSchedule := some (cronOf d) })
      else (none, a)

/-- `initPrimary(date)`: same shape as `initElectionStart`. -/
def initPrimary (now : Int) (date : Option JsDate) (a : Announcement) :
    Option Bool × Announcement :=
  if a.primarySchedule.isSome || a.primaryTask.isSome || date.isNone then
    (some false, a)
  else
    match date with
    | none => (some false, a)
    | some d =>
      if d.valueOf > now then
        (none, { a with
          primaryTask := some { spec := cronOf d, stopped := false }
          primarySchedule := some (cronOf d) })
      else (none, a)

/-- `initNomination(date)`: same shape as `initElectionStart`. -/
def initNomination (now : Int) (date : Option JsDate) (a : Announcement) :
    Option Bool × Announcement :=
  if a.nominationSchedule.isSome || a.nominationTask.isSome || date.isNone then
    (some false, a)
  else
    match date with
    | none => (some false, a)
    | some d =>
      if d.valueOf > now then
        (none, { a with
          nominationTask := some { spec := cronOf d, stopped := false }
          nominationSchedule := some (cronOf d) })
      else (none, a)

/-- The election date fields `initAll` reads
(`dateNomination`, `datePrimary`, `dateElection`, `dateEnded`). -/
structure ElectionDates where
  dateNomination : Option JsDate
  datePrimary : Option JsDate
  dateElection : Option JsDate
  dateEnded : Option JsDate
  deriving DecidableEq, Repr

/-- `initAll()`: calls `initNomination`, `initPrimary`, `initElectionStart`,
`initElectionEnd` in order with the election's own date fields, discarding
their return values. -/
def initAll (now : Int) (e : ElectionDates) (a : Announcement) : Announcement :=
  let a := (initNomination now e.dateNomination a).2
  let a := (initPrimary now e.datePrimary a).2
  let a := (initElectionStart now e.dateElection a).2
  (initElectionEnd now e.dateEnded a).2

/-- `cancelElectionEnd()`: stops the task if one exists (the handle itself is
NOT cleared) and sets the recorded schedule to `null`. -/
def cancelElectionEnd (a : Announcement) : Announcement :=
  let a :=
    match a.electionEndTask with
    | some t => { a with electionEndTask := some { t with stopped := true } }
    | none => a
  { a with electionEndSchedule := none }

/-- `cancelElectionStart()`: stops the task if one exists (handle kept) and
clears the recorded schedule. -/
def cancelElectionStart (a : Announcement) : Announcement :=
  let a :=
    match a.electionStartTask with
    | some t => { a with electionStartTask := some { t with stopped := true } }
    | none => a
  { a with electionStartSchedule := none }

/-- `cancelPrimary()`: stops the task if one exists (handle kept) and clears
the recorded schedule. -/
def cancelPrimary (a : Announcement) : Announcement :=
  let a :=
    match a.primaryTask with
    | some t => { a with primaryTask := some { t with stopped := true } }
    | none => a
  { a with primarySchedule := none }

/-- `cancelNomination()`: stops the task if one exists (handle kept) and
clears the recorded schedule. -/
def cancelNomination (a : Announcement) : Announcement :=
  let a :=
    match a.nominationTask with
    | some t => { a with nominationTask := some { t with stopped := true } }
    | none => a
  { a with nominationSchedule := none }

/-- `cancelAll()`: cancels end, start, primary and nomination, in that
order. -/
def cancelAll (a : Announcement) : Announcement :=
  cancelNomination (cancelPrimary (cancelElectionStart (cancelElectionEnd a)))

/-- Whether a task handle holds a running (armed, not stopped) job. -/
def isArmed (t : Option CronTask) : Bool :=
  match t with
  | some task => !task.stopped
  | none => false

/-- Number of armed (scheduled and not stopped) phase jobs. -/
def armedCount (a : Announcement) : Nat :=
  (if isArmed a.nominationTask then 1 else 0) +
  (if isArmed a.primaryTask then 1 else 0) +
  (if isArmed a.electionStartTask then 1 else 0) +
  (if isArmed a.electionEndTask then 1 else 0)

/-! ## Rescraper `stop()` -/

/-- `Rescraper.stop()`: `if (timeout) this.timeout = clearTimeout(timeout)`.
`clearTimeout` accepts any value and returns `undefined`, so when a handle is
stored the field becomes `undefined`; when none is stored nothing is
assigned. The state is the stored `timeout` field (`none` = no handle). -/
def rescraperStop (timeout : Option Nat) : Option Nat :=
  if timeout.isSome then none else timeout

/-! ## announceCancelled / announceWinners -/

/-- A winner entry (`arrWinners` element) as read by `announceWinners`. -/
structure Winner where
  userName : String
  userId : Nat
  deriving DecidableEq, Repr

/-- The election fields read by `announceCancelled` and `announceWinners`.
`cancelledText` and `resultsUrl` are JS strings tested for truthiness, so
the empty string models every falsy value; `phase` is `none` for `null`. -/
structure ElectionInfo where
  cancelledText : String
  phase : Option String
  arrWinners : List Winner
  resultsUrl : String
  siteUrl : String
  deriving DecidableEq, Repr

/-- A message posted to the room by the terminal announcements. The payload
records exactly the data the source interpolates into the message. -/
inductive PostedMessage where
  /-- The cancellation announcement: the election's `cancelledText` verbatim. -/
  | cancelled (text : String)
  /-- The winners announcement, built from `arrWinners` and `resultsUrl`. -/
  | winners (arrWinners : List Winner) (resultsUrl : String)
  deriving DecidableEq, Repr

/-- The state touched by the terminal announcements: the announcement
scheduler, the rescraper's stored timeout, and the room's message log. -/
structure AnnouncerState where
  ann : Announcement
  rescraperTimeout : Option Nat
  posted : List PostedMessage
  deriving DecidableEq, Repr

/-- `announceCancelled(room, election)`: returns `false` if the election is
absent; then destructures `cancelledText` and `phase` and — under the
comment "Needs to be cancelled" — returns `false` if
`!cancelledText || phase == "cancelled"`; otherwise cancels all cron jobs,
stops the rescraper, posts `cancelledText` and returns `true`. -/
def announceCancelled (election : Option ElectionInfo) (st : AnnouncerState) :
    Bool × AnnouncerState :=
  match election with
  | none => (false, st)
  | some el =>
    if el.cancelledText = "" ∨ el.phase = some "cancelled" then (false, st)
    else
      (true,
       { ann := cancelAll st.ann
         rescraperTimeout := rescraperStop st.rescraperTimeout
         posted := st.posted ++ [PostedMessage.cancelled el.cancelledText] })

/-- `announceWinners(room, election)`: returns `false` if the election is
absent, or if `phase != "ended" || arrWinners.length === 0`; otherwise
cancels all cron jobs, stops the rescraper, posts the winners message and
returns `true`. -/
def announceWinners (election : Option ElectionInfo) (st : AnnouncerState) :
    Bool × AnnouncerState :=
  match election with
  | none => (false, st)
  | some el =>
    if el.phase ≠ some "ended" ∨ el.arrWinners.length = 0 then (false, st)
    else
      (true,
       { ann := cancelAll st.ann
         rescraperTimeout := rescraperStop st.rescraperTimeout
         posted := st.posted ++ [PostedMessage.winners el.arrWinners el.resultsUrl] })

/-! ## BotConfig: duplicate-response check and throttle setter -/

/-- `BotConfig.checkSameResponseAsPrevious(newContent)` (config.js): under
the comment "Unable to repost same message within 30 seconds", returns
`this.lastBotMessage === newContent && Date.now() - 30e4 < this.lastMessageTime`.
Note `30e4` ms is 300 seconds. -/
def checkSameResponseAsPrevious (lastBotMessage : String) (lastMessageTime : Int)
    (now : Int) (newContent : String) : Bool :=
  lastBotMessage == newContent && decide (now - 300000 < lastMessageTime)

/-- The duplicate check as the specification states it: `newContent` is
identical to the last message the bot sent AND that message was sent within
30 seconds (30000 ms) of the current time. Stated from the spec's words to
compare with `checkSameResponseAsPrevious` above. -/
def specDuplicateCheck (lastBotMessage : String) (lastMessageTime : Int)
    (now : Int) (newContent : String) : Bool :=
  lastBotMessage == newContent && decide (now - 30000 < lastMessageTime)

/-- `minThrottleSecs = 1` (config.js). Throttle values are JS numbers; the
embedding uses rationals. -/
def minThrottleSecs : ℚ := 1

/-- The `throttleSecs` setter:
`this._throttleSecs = newValue > this.minThrottleSecs ? newValue : this.minThrottleSecs`. -/
def setThrottleSecs (newValue : ℚ) : ℚ :=
  if newValue > minThrottleSecs then newValue else minThrottleSecs

/-! ## Rescrape tick: primary-phase fragment -/

/-- The primary-phase fragment of a rescrape tick (rescraper.js):
`if (!announcement?.hasPrimary && election.datePrimary) { announcement?.initPrimary(election.datePrimary); await announcement?.announcePrimary(); }`.
Returns the updated announcement state and whether the primary announcement
was made on this tick. -/
def rescrapePrimaryStep (now : Int) (datePrimary : Option JsDate)
    (a : Announcement) : Announcement × Bool :=
  if !a.hasPrimary && datePrimary.isSome then
    ((initPrimary now datePrimary a).2, true)
  else (a, false)

/-! ## Rescrape tick: ending-soon flag discipline -/

/-- The per-tick facts that determine whether the ending-soon branch of a
rescrape tick can run: whether the tick returned early (scrape/validation
failure, no previous scrape, or chat room change), whether the election is
ended with zero winners (the branch that precedes ending-soon in the
`if`/`else if` chain), and whether `election.isEnding()` holds. -/
structure TickInput where
  earlyReturn : Bool
  endedNoWinners : Bool
  ending : Bool
  deriving DecidableEq, Repr

/-- One rescrape tick, restricted to its effect on
`config.flags.saidElectionEndingSoon`: the flag is only written in the
ending-soon branch (set to `true`, before the announcement is awaited), and
that branch runs only when the tick did not return early, the
ended-with-no-winners branch did not run, `isEnding()` holds and the flag is
not yet set. Returns the new flag and whether the ending-soon announcement
was sent this tick. -/
def endingSoonTick (inp : TickInput) (saidEndingSoon : Bool) : Bool × Bool :=
  if inp.earlyReturn then (saidEndingSoon, false)
  else if inp.endedNoWinners then (saidEndingSoon, false)
  else if inp.ending && !saidEndingSoon then (true, true)
  else (saidEndingSoon, false)

/-- Runs a sequence of rescrape ticks from a given flag state, returning the
final flag and how many of the ticks sent the ending-soon announcement. -/
def runTicks : List TickInput → Bool → Bool × Nat
  | [], flag => (flag, 0)
  | inp :: rest, flag =>
    let r := endingSoonTick inp flag
    let rr := runTicks rest r.1
    (rr.1, (if r.2 then 1 else 0) + rr.2)

/-! ## Message delivery queue (modelled from the spec) -/

/-- The word-boundary characters the splitter may cut at. -/
def isBoundaryChar (c : Char) : Bool :=
  c = ' ' || c = ',' || c = ';'

/-- Index of the last space/comma/semicolon at-or-before position `limit`
in `cs`, if any. -/
def lastBoundaryIdx (cs : List Char) (limit : Nat) : Option Nat :=
  (List.range (limit + 1)).foldl
    (fun acc i =>
      match cs.get? i with
      | some c => if isBoundaryChar c then some i else acc
      | none => acc)
    none

/-- Modelled from the spec: the newline-free splitting step of
`sendMultipartMessage` (src/bot/queue.js is not under src/; only its unit
test is). Per §4.4, a chunk ends at the last space/comma/semicolon
at-or-before the max-length boundary, falling back to a hard cut at the
boundary when no separator exists within the budget. `fuel` bounds the
recursion (any fuel at least the text length is enough). -/
def splitChunksAux (maxLen : Nat) : Nat → List Char → List (List Char)
  | 0, cs => [cs]
  | fuel + 1, cs =>
    if cs.length ≤ maxLen then [cs]
    else
      match lastBoundaryIdx cs maxLen with
      | some i => cs.take i :: splitChunksAux maxLen fuel (cs.drop (i + 1))
      | none => cs.take maxLen :: splitChunksAux maxLen fuel (cs.drop maxLen)

/-- Splits a character list at newline characters (the newline-boundary
splitting of the queue). -/
def splitLines : List Char → List (List Char)
  | [] => [[]]
  | c :: cs =>
    let rest := splitLines cs
    if c = '\n' then [] :: rest
    else
      match rest with
      | [] => [[c]]
      | l :: ls => (c :: l) :: ls

/-- Modelled from the spec: chunking for `sendMultipartMessage`. If the text
contains newlines it is split on newline boundaries (each line further split
if it exceeds the budget); otherwise it is split at word boundaries as in
`splitChunksAux`. -/
def splitMessage (maxLen : Nat) (text : String) : List String :=
  let cs := text.toList
  let pieces := if cs.contains '\n' then splitLines cs else [cs]
  pieces.flatMap fun piece =>
    (splitChunksAux maxLen piece.length piece).map fun l => String.mk l

/-- The single apology message sent instead of an over-long multi-part
message; the text is the one the source uses. -/
def poemApology (n : Nat) : String :=
  "I wrote a poem of " ++ toString n ++ " messages for you!"

/-- Modelled from the spec: `sendMultipartMessage(config, room, text, options)`
from src/bot/queue.js (absent from src/). Empty or blank (all-whitespace)
text fails with no send. If the chunk count exceeds `maxMessageParts` and
the send is not privileged, a single apology message (`poemApology`, the
text the source uses) is sent and the call fails. Otherwise the chunks are
sent in order and the call succeeds. Returns the list of messages actually
sent and the success flag. -/
def sendMultipartMessage (maxLen maxParts : Nat) (isPrivileged : Bool)
    (text : String) : List String × Bool :=
  if text.toList.all Char.isWhitespace then ([], false)
  else
    let messages := splitMessage maxLen text
    if messages.length > maxParts && !isPrivileged then
      ([poemApology messages.length], false)
    else (messages, true)

/-! ## Election state and scrape (modelled from the spec) -/

/-- A nominee record in a snapshot (§3): name, permalink, withdrawn flag. -/
structure Nominee where
  userName : String
  permalink : String
  withdrawn : Bool
  deriving DecidableEq, Repr

/-- Modelled from the spec: an `ElectionSnapshot` (§3) — one scraped read of
the election page (election.js is not under src/). -/
structure ElectionSnapshot where
  phase : Option String
  dateNomination : Option Int
  datePrimary : Option Int
  dateElection : Option Int
  dateEnded : Option Int
  nominees : List (Nat × Nominee)
  winners : List Nat
  chatRoomId : Option Nat
  chatDomain : Option String
  numPositions : Option Nat
  repVote : Option Nat
  repNominate : Option Nat
  statVoters : Option String
  deriving DecidableEq, Repr

/-- Modelled from the spec: the `Election` aggregate's mutable scrape state
(§3): the current snapshot and `prev` (`null` before the first successful
scrape). -/
structure ElectionState where
  current : ElectionSnapshot
  prev : Option ElectionSnapshot
  deriving DecidableEq, Repr

/-- Modelled from the spec: `scrapeElection` of election.js (absent from
src/). The external scrape collaborator's result is `none` on network
failure or when no fields were scraped. Per §4.1, on failure the call
returns `false` and leaves the state unchanged; on success it archives the
current snapshot into `prev`, replaces the current state, and returns
`true`. -/
def scrapeElection (fetched : Option ElectionSnapshot) (st : ElectionState) :
    Bool × ElectionState :=
  match fetched with
  | none => (false, st)
  | some snap => (true, { current := snap, prev := some st.current })

/-! ## Per-phase dispatch, for stating properties uniformly over phases -/

/-- The four phase jobs of the announcement scheduler. -/
inductive PhaseJob where
  | nomination
  | primary
  | electionStart
  | electionEnd
  deriving DecidableEq, Repr

/-- Dispatches to the init method of a phase job. -/
def initPhase : PhaseJob → Int → Option JsDate → Announcement →
    Option Bool × Announcement
  | .nomination => initNomination
  | .primary => initPrimary
  | .electionStart => initElectionStart
  | .electionEnd => initElectionEnd

/-- The task-handle field of a phase job. -/
def phaseTask : PhaseJob → Announcement → Option CronTask
  | .nomination, a => a.nominationTask
  | .primary, a => a.primaryTask
  | .electionStart, a => a.electionStartTask
  | .electionEnd, a => a.electionEndTask

/-- The recorded-schedule field of a phase job. -/
def phaseSchedule : PhaseJob → Announcement → Option CronSpec
  | .nomination, a => a.nominationSchedule
  | .primary, a => a.primarySchedule
  | .electionStart, a => a.electionStartSchedule
  | .electionEnd, a => a.electionEndSchedule

/-- Whether the init method of this phase has the
`typeof date == "undefined"` guard (all but `initElectionEnd` do). -/
def checksAbsentDate : PhaseJob → Bool
  | .electionEnd => false
  | _ => true

end ElectionBot

namespace ElectionBot

/-! # Claim theorems -/

/-! ## C1 -/

/-- Election dates for the C1 scenario: all four dates in the future of
`now = 1000`. -/
def c1Dates : ElectionDates :=
  { dateNomination := some ⟨2000, 1, 2, 3⟩
    datePrimary := some ⟨3000, 4, 5, 6⟩
    dateElection := some ⟨4000, 7, 8, 9⟩
    dateEnded := some ⟨5000, 10, 11, 12⟩ }

/-- An announcement with all four jobs armed by a fresh `initAll()`. -/
def c1Armed : Announcement := initAll 1000 c1Dates Announcement.fresh

/-- Claim C1, evaluated at the failing input: a fresh `initAll()` with all
four dates in the future arms four jobs, but `cancelAll()` followed by
`initAll()` leaves ZERO armed jobs, because each `cancel<Phase>()` clears
only the recorded schedule and not the task handle, so every `init<Phase>`
hits its schedule-or-task-exists guard and returns `false`; the round-trip
does not match a fresh `initAll()`. -/
theorem c1_cancelAll_initAll_arms_nothing :
    armedCount c1Armed = 4 ∧
    armedCount (initAll 1000 c1Dates (cancelAll c1Armed)) = 0 ∧
    initAll 1000 c1Dates (cancelAll c1Armed) = cancelAll c1Armed ∧
    (initNomination 1000 c1Dates.dateNomination (cancelAll c1Armed)).1 = some false ∧
    (initPrimary 1000 c1Dates.datePrimary (cancelAll c1Armed)).1 = some false ∧
    (initElectionStart 1000 c1Dates.dateElection (cancelAll c1Armed)).1 = some false ∧
    (initElectionEnd 1000 c1Dates.dateEnded (cancelAll c1Armed)).1 = some false := by
  decide

/-! ## C2 -/

/-- A genuinely cancelled election: phase `cancelled`, cancellation text
present. -/
def c2Cancelled : ElectionInfo :=
  { cancelledText := "The election has been cancelled."
    phase := some "cancelled"
    arrWinners := []
    resultsUrl := ""
    siteUrl := "https://stackoverflow.com" }

/-- An ended election with one winner. -/
def c2Ended : ElectionInfo :=
  { cancelledText := ""
    phase := some "ended"
    arrWinners := [⟨"Alice", 1⟩]
    resultsUrl := "https://www.opavote.com/results/1"
    siteUrl := "https://stackoverflow.com" }

/-- A system state with an armed rescraper timeout. -/
def c2State : AnnouncerState :=
  { ann := Announcement.fresh, rescraperTimeout := some 7, posted := [] }

/-- Claim C2, evaluated at the failing input: for an election that IS
cancelled (phase `cancelled`, cancellation text present), `announceCancelled`
returns `false` and does nothing — its guard `!cancelledText || phase ==
"cancelled"` is inverted relative to its own "Needs to be cancelled"
comment, and it would instead announce a NON-cancelled election carrying a
cancellation text. The `announceWinners` half behaves as the claim states:
`false` for an absent election, a non-ended phase, or zero winners, and
otherwise it cancels schedules, stops the rescraper, posts and returns
`true`. -/
theorem c2_announceCancelled_guard_inverted :
    announceCancelled (some c2Cancelled) c2State = (false, c2State) ∧
    announceCancelled none c2State = (false, c2State) ∧
    (announceCancelled (some { c2Cancelled with phase := some "nomination" }) c2State).1
      = true ∧
    announceWinners none c2State = (false, c2State) ∧
    (announceWinners (some { c2Ended with phase := some "election" }) c2State)
      = (false, c2State) ∧
    (announceWinners (some { c2Ended with arrWinners := [] }) c2State)
      = (false, c2State) ∧
    (announceWinners (some c2Ended) c2State).1 = true ∧
    (announceWinners (some c2Ended) c2State).2.rescraperTimeout = none ∧
    (announceWinners (some c2Ended) c2State).2.ann = cancelAll c2State.ann ∧
    (announceWinners (some c2Ended) c2State).2.posted
      = [PostedMessage.winners [⟨"Alice", 1⟩] "https://www.opavote.com/results/1"] := by
  decide

/-! ## C3 -/

/-- A future primary date for the C3 scenario. -/
def c3Date : JsDate := ⟨5000, 1, 2, 3⟩

/-- An announcement whose primary job is already scheduled. -/
def c3Scheduled : Announcement := (initPrimary 1000 (some c3Date) Announcement.fresh).2

/-- Claim C3, evaluated at the failing input: with NO primary schedule and a
primary date present in the snapshot, the rescrape tick neither arms the
primary job nor announces (the `hasPrimary` getter returns the negation of
`_primarySchedule`, so `!announcement.hasPrimary` means a schedule EXISTS);
conversely, once a primary schedule exists the branch fires — announcing —
on every tick. -/
theorem c3_primary_branch_inverted :
    Announcement.fresh.hasPrimary = true ∧
    rescrapePrimaryStep 1000 (some c3Date) Announcement.fresh
      = (Announcement.fresh, false) ∧
    c3Scheduled.hasPrimary = false ∧
    (rescrapePrimaryStep 1000 (some c3Date) c3Scheduled).2 = true := by
  decide

/-! ## C4 -/

/-- Claim C4, evaluated at the failing input: the code's duplicate window is
`30e4` ms = 300 seconds, not the 30 seconds its own comment (and the claim)
state. Sending the same text 60 seconds after the previous bot message is
still flagged as a duplicate by the code, while the claim says it is not;
within 30 seconds and beyond 300 seconds the two agree. -/
theorem c4_duplicate_window_is_300s :
    checkSameResponseAsPrevious "hello" 940000 1000000 "hello" = true ∧
    specDuplicateCheck "hello" 940000 1000000 "hello" = false ∧
    checkSameResponseAsPrevious "hello" 999000 1000000 "hello" = true ∧
    specDuplicateCheck "hello" 999000 1000000 "hello" = true ∧
    checkSameResponseAsPrevious "hello" 699999 1000000 "hello" = false ∧
    checkSameResponseAsPrevious "hello" 999000 1000000 "world" = false := by
  decide

/-! ## C5 -/

/-- Counterexample to claim C5: `initElectionStart` called with a PAST date
(valueOf 500, now 1000) on a fresh announcement does not return `false` —
it falls through and returns `undefined` (`none` in the embedding); likewise
`initElectionEnd` with an ABSENT date returns `undefined`, having no
absent-date guard. -/
theorem c5_counterexample_past_date_returns_undefined :
    (initPhase PhaseJob.electionStart 1000 (some ⟨500, 1, 2, 3⟩) Announcement.fresh).1
      = none ∧
    (initPhase PhaseJob.electionStart 1000 (some ⟨500, 1, 2, 3⟩) Announcement.fresh).1
      ≠ some false ∧
    (initPhase PhaseJob.electionEnd 1000 none Announcement.fresh).1 = none := by
  decide

/-- Claim C5 as amended: for every phase, `init<Phase>(date)` arms no job
and leaves the state unchanged when a schedule or task handle already
exists, when the date is absent, or when the date is not in the future; it
returns the literal `false` when a schedule or task exists, or — only for
the three phases that check it — when the date is absent, and returns
`undefined` when the date is in the past (or absent, for `initElectionEnd`).
Calling `init<Phase>` twice with the same future date arms exactly one job:
the second call returns `false` and leaves the first job's handle
unchanged. -/
theorem c5_init_guard_discipline (p : PhaseJob) (now : Int) (d : Option JsDate)
    (a : Announcement) :
    ((phaseSchedule p a).isSome = true ∨ (phaseTask p a).isSome = true →
      initPhase p now d a = (some false, a)) ∧
    (phaseSchedule p a = none → phaseTask p a = none → d = none →
      initPhase p now d a = ((if checksAbsentDate p then some false else none), a)) ∧
    (∀ jd, phaseSchedule p a = none → phaseTask p a = none → d = some jd →
      jd.valueOf ≤ now → initPhase p now d a = (none, a)) ∧
    (∀ jd, phaseSchedule p a = none → phaseTask p a = none → d = some jd →
      jd.valueOf > now →
      phaseTask p (initPhase p now d a).2 = some { spec := cronOf jd, stopped := false } ∧
      initPhase p now d (initPhase p now d a).2 = (some false, (initPhase p now d a).2)) ∧
    (∀ jd, d = some jd → jd.valueOf > now →
      armedCount (initPhase p now d Announcement.fresh).2 = 1 ∧
      armedCount (initPhase p now d ((initPhase p now d Announcement.fresh).2)).2 = 1) := by
  refine ⟨?_, ?_, ?_, ?_, ?_⟩
  · intro h
    rcases h with h | h <;>
      cases p <;>
        simp_all [initPhase, phaseSchedule, phaseTask, initNomination, initPrimary,
          initElectionStart, initElectionEnd]
  · intro hs ht hd
    subst hd
    cases p <;>
      simp_all [initPhase, phaseSchedule, phaseTask, checksAbsentDate, initNomination,
        initPrimary, initElectionStart, initElectionEnd]
  · intro jd hs ht hd hle
    subst hd
    cases p <;>
      simp_all [initPhase, phaseSchedule, phaseTask, initNomination, initPrimary,
        initElectionStart, initElectionEnd, not_lt.mpr hle]
  · intro jd hs ht hd hgt
    subst hd
    cases p <;>
      simp_all [initPhase, phaseSchedule, phaseTask, initNomination, initPrimary,
        initElectionStart, initElectionEnd]
  · intro jd hd hgt
    subst hd
    cases p <;>
      simp_all [initPhase, phaseTask, initNomination, initPrimary, initElectionStart,
        initElectionEnd, Announcement.fresh, armedCount, isArmed]

/-- Witness for C5 as amended: arming the primary job with a concrete future
date and calling `initPrimary` again returns `false` and leaves the armed
state unchanged. -/
theorem c5_init_guard_discipline_witness :
    phaseTask PhaseJob.primary
        (initPhase PhaseJob.primary 1000 (some ⟨2000, 1, 2, 3⟩) Announcement.fresh).2
      = some { spec := cronOf ⟨2000, 1, 2, 3⟩, stopped := false } ∧
    initPhase PhaseJob.primary 1000 (some ⟨2000, 1, 2, 3⟩)
        (initPhase PhaseJob.primary 1000 (some ⟨2000, 1, 2, 3⟩) Announcement.fresh).2
      = (some false,
         (initPhase PhaseJob.primary 1000 (some ⟨2000, 1, 2, 3⟩) Announcement.fresh).2) :=
  (c5_init_guard_discipline PhaseJob.primary 1000 (some ⟨2000, 1, 2, 3⟩)
    Announcement.fresh).2.2.2.1 ⟨2000, 1, 2, 3⟩ rfl rfl rfl (by decide)

/-! ## C6 -/

/-- `needle` occurs inside `hay`. -/
def ContainsSub (hay needle : String) : Prop :=
  ∃ pre post, pre ++ needle ++ post = hay

/-- Claim C6: whenever splitting yields more chunks than `maxMessageParts`
and the send is not privileged, `sendMultipartMessage` sends exactly the one
apology message (which contains "wrote a poem") and fails; in particular the
text "first second third fourth fifth" with `maxMessageLength = 6` splits
into 5 chunks, none of which is sent. -/
theorem c6_poem_guard (maxLen maxParts : Nat) (text : String)
    (hblank : text.toList.all Char.isWhitespace = false)
    (hcount : (splitMessage maxLen text).length > maxParts) :
    sendMultipartMessage maxLen maxParts false text =
      ([poemApology (splitMessage maxLen text).length], false) ∧
    ContainsSub (poemApology (splitMessage maxLen text).length) "wrote a poem" ∧
    (splitMessage 6 "first second third fourth fifth").length = 5 ∧
    sendMultipartMessage 6 3 false "first second third fourth fifth" =
      (["I wrote a poem of 5 messages for you!"], false) ∧
    (∀ c ∈ splitMessage 6 "first second third fourth fifth",
      c ∉ (sendMultipartMessage 6 3 false "first second third fourth fifth").1) := by
  refine ⟨?_, ?_, by decide, by decide, by decide⟩
  · have hb : ¬ (text.toList.all Char.isWhitespace = true) := by
      rw [hblank]
      exact Bool.false_ne_true
    simp only [sendMultipartMessage, if_neg hb]
    simp [hcount]
  · refine ⟨"I ", " of " ++ toString (splitMessage maxLen text).length
      ++ " messages for you!", ?_⟩
    apply String.ext
    simp only [poemApology, String.data_append, List.append_assoc]
    have hlit : ("I ".data ++ ("wrote a poem".data ++ " of ".data)) =
        "I wrote a poem of ".data := by decide
    rw [← List.append_assoc "wrote a poem".data, ← List.append_assoc, hlit]

/-- Witness for C6: the poem guard at the concrete claim input. -/
theorem c6_poem_guard_witness :
    sendMultipartMessage 6 3 false "first second third fourth fifth" =
      ([poemApology (splitMessage 6 "first second third fourth fifth").length], false) :=
  (c6_poem_guard 6 3 "first second third fourth fifth" (by decide) (by decide)).1



/-! ## C7 -/

/-- Claim C7: a failed `scrapeElection` leaves the election state — both the
current snapshot and `prev` — exactly as it was. -/
theorem c7_scrape_failure_leaves_state_unchanged
    (fetched : Option ElectionSnapshot) (st : ElectionState)
    (h : (scrapeElection fetched st).1 = false) :
    (scrapeElection fetched st).2 = st := by
  cases fetched with
  | none => rfl
  | some snap => simp [scrapeElection] at h

/-- A concrete election state for the C7 witness. -/
def c7State : ElectionState :=
  { current :=
      { phase := some "nomination"
        dateNomination := some 100, datePrimary := none
        dateElection := some 200, dateEnded := some 300
        nominees := [(1, ⟨"Alice", "https://example.com/1", false⟩)]
        winners := []
        chatRoomId := some 5, chatDomain := some "stackexchange.com"
        numPositions := some 2, repVote := some 150, repNominate := some 1000
        statVoters := none }
    prev := none }

/-- Witness for C7: a failed scrape at a concrete state changes nothing. -/
theorem c7_scrape_failure_witness :
    (scrapeElection none c7State).1 = false ∧
    (scrapeElection none c7State).2 = c7State :=
  ⟨rfl, c7_scrape_failure_leaves_state_unchanged none c7State rfl⟩

/-! ## C8 -/

/-- Once the ending-soon flag is set, any sequence of rescrape ticks keeps
it set and sends no further ending-soon announcement. -/
theorem runTicks_flag_set (inps : List TickInput) : runTicks inps true = (true, 0) := by
  induction inps with
  | nil => rfl
  | cons inp rest ih =>
    rcases inp with ⟨er, enw, en⟩
    cases er <;> cases enw <;> cases en <;> simp [runTicks, endingSoonTick, ih]

/-- Claim C8: the ending-soon announcement is sent on a tick only when the
flag was unset, the tick that sends it sets the flag, a tick never clears a
set flag, and hence every sequence of ticks — from any starting flag —
announces ending-soon at most once. -/
theorem c8_ending_soon_at_most_once :
    (∀ inp f, (endingSoonTick inp f).2 = true →
      f = false ∧ (endingSoonTick inp f).1 = true) ∧
    (∀ inp, (endingSoonTick inp true).1 = true) ∧
    (∀ inps flag, (runTicks inps flag).2 ≤ 1) := by
  refine ⟨?_, ?_, ?_⟩
  · intro inp f h
    rcases inp with ⟨er, enw, en⟩
    cases er <;> cases enw <;> cases en <;> cases f <;>
      simp_all [endingSoonTick]
  · intro inp
    rcases inp with ⟨er, enw, en⟩
    cases er <;> cases enw <;> cases en <;> simp [endingSoonTick]
  · intro inps
    induction inps with
    | nil => intro flag; simp [runTicks]
    | cons inp rest ih =>
      intro flag
      rcases inp with ⟨er, enw, en⟩
      cases er <;> cases enw <;> cases en <;> cases flag <;>
        simp [runTicks, endingSoonTick, runTicks_flag_set] <;>
        exact ih _

/-- Witness for C8: a tick that announces ending-soon had the flag unset and
sets it. -/
theorem c8_ending_soon_witness :
    false = false ∧ (endingSoonTick ⟨false, false, true⟩ false).1 = true :=
  c8_ending_soon_at_most_once.1 ⟨false, false, true⟩ false (by decide)

/-! ## C9 -/

/-- Claim C9: `Rescraper.stop()` is total on the stored handle state,
calling it twice gives the same result as calling it once, and afterwards
the stored timeout handle is cleared (the rescraper is disarmed). -/
theorem c9_stop_idempotent_and_disarms :
    ∀ t : Option Nat,
      rescraperStop (rescraperStop t) = rescraperStop t ∧
      rescraperStop (rescraperStop t) = none := by
  intro t
  cases t <;> simp [rescraperStop]

/-! ## C10 -/

/-- Claim C10: every assignment through the `throttleSecs` setter yields a
stored value of at least `minThrottleSecs = 1` (so never zero or negative):
the stored throttle becomes the new value when it exceeds 1 and exactly 1
otherwise. -/
theorem c10_throttle_setter_invariant :
    ∀ v : ℚ, 1 ≤ setThrottleSecs v ∧ 0 < setThrottleSecs v ∧
      setThrottleSecs v = (if 1 < v then v else 1) := by
  intro v
  unfold setThrottleSecs minThrottleSecs
  by_cases h : (1 : ℚ) < v
  · rw [if_pos h]
    exact ⟨le_of_lt h, lt_trans one_pos h, rfl⟩
  · rw [if_neg h]
    exact ⟨le_refl 1, one_pos, rfl⟩

end ElectionBot
